import Mathlib

/-!
Shallow embedding of the scoring core of the resume-rater application
(`app/components/resume_matcher.py`, `app/components/job_description.py`,
`app/utils/text_analysis.py`) together with proofs about it.

Modeling conventions:
* Python floats are modeled as exact rationals (`ℚ`); `round(x, n)` is
  round-half-to-even at `n` decimal digits.
* Python strings are Lean `String`s; `str.lower()` is character-wise ASCII
  lowering; the substring test `a in b` is `listIn`.
* The regular expressions used by the source are small and fixed; each one is
  modeled by an explicit scanner with the Python leftmost-match / greedy
  semantics (see the individual definitions).
* Presentation-only string fields of the result dictionaries (the `details`
  texts and the improvement-suggestion sentences) are omitted from the
  embedded result records; every numeric and list field is kept.
* `list(set(xs))` is modeled as order-preserving de-duplication where only the
  membership of the result matters to the scores; for `extract_skills`, whose
  output order is the point at issue, the set-iteration order is an explicit
  oracle parameter instead.
-/

namespace ResumeRater

/-- Python `round(y)` on a rational: round half to even. -/
def roundHalfEven (x : ℚ) : ℤ :=
  let f := ⌊x⌋
  let frac := x - f
  if frac < 1/2 then f
  else if frac > 1/2 then f + 1
  else if f % 2 = 0 then f else f + 1

/-- Python `round(x, n)` at `n` decimal digits, on exact rationals. -/
def pyround (x : ℚ) (n : ℕ) : ℚ :=
  let m : ℚ := ((10 : ℕ) ^ n : ℕ)
  (roundHalfEven (x * m) : ℚ) / m

/-- Python `str.lower()` (ASCII model), as a character list. -/
def pyLower (s : String) : List Char := s.toList.map Char.toLower

/-- Python `str.lower()`, as a `String`. -/
def pyLowerS (s : String) : String := String.mk (pyLower s)

/-- The Python substring test `a in b` on character lists. -/
def listIn (a : List Char) : List Char → Bool
  | [] => a.isEmpty
  | c :: rest => a.isPrefixOf (c :: rest) || listIn a rest

/-- The Python substring test `a in b` on strings. -/
def strIn (a b : String) : Bool := listIn a.toList b.toList

/-- The configuration dictionary of `calculate_match_score`. -/
structure Config where
  skill_weight : ℚ
  priority_skill_bonus : ℚ
  experience_weight : ℚ
  education_weight : ℚ
  skill_match_threshold : ℚ

/-- The default configuration built when `config is None`. -/
def defaultConfig : Config :=
  { skill_weight := 1/2, priority_skill_bonus := 2, experience_weight := 3/10,
    education_weight := 1/5, skill_match_threshold := 7/10 }

/-- Result dictionary of `calculate_skill_match` (without the `details` text). -/
structure SkillMatchResult where
  score : ℚ
  matched_skills : List String
  missing_skills : List String
  priority_matched : List String
  priority_missing : List String
  match_percentage : ℚ

/-- The per-job-skill membership test of `calculate_skill_match`:
`skill_lower in resume_skills_lower or any(skill_lower in rs for rs in resume_skills_lower)`. -/
def skillMatchedB (resume_skills_lower : List (List Char)) (skill : String) : Bool :=
  let skill_lower := pyLower skill
  resume_skills_lower.contains skill_lower
    || resume_skills_lower.any (fun rs => listIn skill_lower rs)

/-- The per-priority-skill membership test of `calculate_skill_match`:
`skill.lower() in resume_skills_lower` (exact equality only). -/
def priorityMatchedB (resume_skills_lower : List (List Char)) (skill : String) : Bool :=
  resume_skills_lower.contains (pyLower skill)

/-- The `matched_skills` list built by the loop in `calculate_skill_match`. -/
def matchedSkills (resume_skills job_skills : List String) : List String :=
  job_skills.filter (fun s => skillMatchedB (resume_skills.map pyLower) s)

/-- The `missing_skills` list built by the loop in `calculate_skill_match`. -/
def missingSkills (resume_skills job_skills : List String) : List String :=
  job_skills.filter (fun s => !skillMatchedB (resume_skills.map pyLower) s)

/-- The `priority_matched` comprehension in `calculate_skill_match`. -/
def priMatched (resume_skills priority_skills : List String) : List String :=
  priority_skills.filter (fun s => priorityMatchedB (resume_skills.map pyLower) s)

/-- The `priority_missing` comprehension in `calculate_skill_match`. -/
def priMissing (resume_skills priority_skills : List String) : List String :=
  priority_skills.filter (fun s => !priorityMatchedB (resume_skills.map pyLower) s)

/-- The skill score of `calculate_skill_match` before rounding: base coverage
blended with the priority-bonus term by the priority weight, capped at `1.0`. -/
def skillScore (resume_skills job_skills priority_skills : List String) (config : Config) : ℚ :=
  let total_skills := job_skills.length
  let matched_count := (matchedSkills resume_skills job_skills).length
  let priority_match_score : ℚ :=
    if priority_skills = [] then 0
    else ((priMatched resume_skills priority_skills).length : ℚ)
           / (priority_skills.length : ℚ) * config.priority_skill_bonus
  let base_score : ℚ := if 0 < total_skills then (matched_count : ℚ) / total_skills else 1
  let priority_weight : ℚ :=
    if 0 < total_skills then (priority_skills.length : ℚ) / total_skills else 0
  min 1 (base_score * (1 - priority_weight) + priority_match_score * priority_weight)

/-- `calculate_skill_match` from `resume_matcher.py`. -/
def calculate_skill_match (resume_skills job_skills priority_skills : List String)
    (config : Config) : SkillMatchResult :=
  if job_skills = [] then
    { score := 1, matched_skills := [], missing_skills := [],
      priority_matched := [], priority_missing := [], match_percentage := 100 }
  else
    { score := pyround (skillScore resume_skills job_skills priority_skills config) 2,
      matched_skills := matchedSkills resume_skills job_skills,
      missing_skills := missingSkills resume_skills job_skills,
      priority_matched := priMatched resume_skills priority_skills,
      priority_missing := priMissing resume_skills priority_skills,
      match_percentage :=
        pyround (if 0 < job_skills.length then
                   ((matchedSkills resume_skills job_skills).length : ℚ)
                     / job_skills.length * 100
                 else 100) 1 }

/-- `calculate_skill_match_score` from `app/utils/text_analysis.py` (the
parallel legacy scorer): set-intersection ratio, `0.0` on an empty job list. -/
def calculate_skill_match_score (job_skills resume_skills : List String) : ℚ :=
  if job_skills = [] then 0
  else
    let job_skills_set := (job_skills.map pyLowerS).dedup
    let resume_skills_set := (resume_skills.map pyLowerS).dedup
    let matching_skills := job_skills_set.filter (fun s => resume_skills_set.contains s)
    (matching_skills.length : ℚ) / (job_skills_set.length : ℚ)

/-- The Python `\w` character class (ASCII model): letters, digits, underscore. -/
def isWordChar (c : Char) : Bool := c.isAlphanum || c = '_'

/-- Wordness of the first character of a list (`false` at end of text),
used for the right-hand side of a `\b` boundary test. -/
def headWordness : List Char → Bool
  | [] => false
  | c :: _ => isWordChar c

/-- Matches of the zero-width pattern `\b\b` (empty keyword): the number of
word-boundary positions, scanning with the wordness of the previous
character. -/
def countBoundaries : Bool → List Char → ℕ
  | prevW, [] => if prevW then 1 else 0
  | prevW, c :: rest => (if prevW != isWordChar c then 1 else 0) + countBoundaries (isWordChar c) rest

/-- Non-overlapping occurrences of `\b<literal pat>\b` in a text, for a
non-empty literal `pat` (Python `re.findall` semantics: leftmost matches,
resuming after each match). The fuel argument is an upper bound on the scan
length; every step consumes at least one character. -/
def countWWAux (pat : List Char) : ℕ → Bool → List Char → ℕ
  | 0, _, _ => 0
  | _ + 1, _, [] => 0
  | fuel + 1, prevW, c :: rest =>
    if pat.isPrefixOf (c :: rest)
        && (prevW != isWordChar (pat.headD c))
        && (isWordChar (pat.getLastD c) != headWordness ((c :: rest).drop pat.length)) then
      1 + countWWAux pat fuel (isWordChar (pat.getLastD c)) ((c :: rest).drop pat.length)
    else countWWAux pat fuel (isWordChar c) rest

/-- Number of matches of `re.findall` for the pattern `\b<pat>\b` (escaped literal). -/
def countWholeWord (pat text : List Char) : ℕ :=
  match pat with
  | [] => countBoundaries false text
  | _ :: _ => countWWAux pat (text.length + 1) false text

/-- Success of `re.search` for the pattern `\b<pat>\b` (escaped literal). -/
def wwSearch (pat text : List Char) : Bool := countWholeWord pat text != 0

/-- The `COMMON_TECH_SKILLS` vocabulary of `job_description.py`. -/
def COMMON_TECH_SKILLS : List String :=
  ["python", "javascript", "java", "c++", "c#", "ruby", "php", "swift",
   "kotlin", "go", "rust", "typescript", "sql", "nosql", "mongodb",
   "postgresql", "mysql", "oracle", "react", "angular", "vue.js", "node.js",
   "express.js", "django", "flask", "spring", "asp.net", "laravel",
   "aws", "azure", "gcp", "docker", "kubernetes", "terraform", "jenkins",
   "git", "ci/cd", "agile", "scrum", "jira", "rest api", "graphql",
   "machine learning", "deep learning", "ai", "data science", "big data",
   "hadoop", "spark", "kafka", "elasticsearch", "tableau", "power bi",
   "excel", "powerpoint", "word", "html", "css", "bootstrap", "sass",
   "redux", "jquery", "webpack", "babel", "responsive design", "mobile development"]

/-- The `extracted_skills` list built by the matching loop of
`extract_skills` in `job_description.py`: vocabulary terms found in the
lowered text by a whole-word search, in vocabulary order. -/
def extract_skills_raw (text : String) : List String :=
  COMMON_TECH_SKILLS.filter (fun skill => wwSearch skill.toList (pyLower text))

/-- Admissible behaviors of the CPython `list(set(xs))`: some enumeration of
the distinct elements of `xs`. The actual enumeration order depends on the
per-process string hashing of the interpreter and is not determined by the
program text. -/
def SetOrderSpec (f : List String → List String) : Prop :=
  ∀ l : List String, List.Perm (f l) l.dedup

/-- `extract_skills` from `job_description.py`: whole-word vocabulary
matching followed by `list(set(extracted_skills))`, the latter modeled by a
set-enumeration oracle satisfying `SetOrderSpec`. -/
def extract_skills (setOrder : List String → List String) (text : String) : List String :=
  setOrder (extract_skills_raw text)

/-- Python `\s` whitespace class (ASCII model). -/
def isSpace (c : Char) : Bool :=
  c = ' ' || c = '\t' || c = '\n' || c = '\r' || c = '\x0b' || c = '\x0c'

/-- Digits of a decimal numeral to a natural number. -/
def digitsToNat (ds : List Char) : ℕ := ds.foldl (fun acc c => acc * 10 + (c.toNat - 48)) 0

/-- Greedy `(\d+)` at the current position: the maximal digit run and the rest. -/
def takeDigits (cs : List Char) : Option (ℕ × List Char) :=
  let ds := cs.takeWhile Char.isDigit
  if ds.isEmpty then none else some (digitsToNat ds, cs.drop ds.length)

/-- A literal at the current position: the rest on success. -/
def dropLit (lit : List Char) (cs : List Char) : Option (List Char) :=
  if lit.isPrefixOf cs then some (cs.drop lit.length) else none

/-- `re.search`: try the position matcher at each position, left to right. -/
def reSearch {α : Type} (f : List Char → Option α) : List Char → Option α
  | [] => none
  | c :: rest =>
    match f (c :: rest) with
    | some v => some v
    | none => reSearch f rest

/-- Pattern `(\d+)\+?\s*years?` at one position (on lowered text; the greedy
`\d+`/`\+?`/`\s*` steps never benefit from backtracking against the literal
`year` that follows, so maximal munch is exact). -/
def matchP1At (cs : List Char) : Option ℕ :=
  match takeDigits cs with
  | none => none
  | some (n, r0) =>
    let r1 := match r0 with
      | '+' :: t => t
      | _ => r0
    match dropLit "year".toList (r1.dropWhile isSpace) with
    | some _ => some n
    | none => none

/-- Pattern `(\d+)\s*\+\s*years?` at one position. -/
def matchP2At (cs : List Char) : Option ℕ :=
  match takeDigits cs with
  | none => none
  | some (n, r0) =>
    match r0.dropWhile isSpace with
    | '+' :: t =>
      match dropLit "year".toList (t.dropWhile isSpace) with
      | some _ => some n
      | none => none
    | _ => none

/-- Pattern `minimum\s*of\s*(\d+)\s*years?` at one position. -/
def matchP3At (cs : List Char) : Option ℕ :=
  match dropLit "minimum".toList cs with
  | none => none
  | some r0 =>
    match dropLit "of".toList (r0.dropWhile isSpace) with
    | none => none
    | some r1 =>
      match takeDigits (r1.dropWhile isSpace) with
      | none => none
      | some (n, r2) =>
        match dropLit "year".toList (r2.dropWhile isSpace) with
        | some _ => some n
        | none => none

/-- Pattern `at\s*least\s*(\d+)\s*years?` at one position. -/
def matchP4At (cs : List Char) : Option ℕ :=
  match dropLit "at".toList cs with
  | none => none
  | some r0 =>
    match dropLit "least".toList (r0.dropWhile isSpace) with
    | none => none
    | some r1 =>
      match takeDigits (r1.dropWhile isSpace) with
      | none => none
      | some (n, r2) =>
        match dropLit "year".toList (r2.dropWhile isSpace) with
        | some _ => some n
        | none => none

/-- Pattern `(\d+)[-\s](\d+)\s*years?` at one position; the source returns
`int(match.group(1))`, the first number. -/
def matchP5At (cs : List Char) : Option ℕ :=
  match takeDigits cs with
  | none => none
  | some (n, r0) =>
    match r0 with
    | c :: t =>
      if c = '-' || isSpace c then
        match takeDigits t with
        | none => none
        | some (_, r1) =>
          match dropLit "year".toList (r1.dropWhile isSpace) with
          | some _ => some n
          | none => none
      else none
    | [] => none

/-- The `exp_phrases` fallback table of `extract_years_from_experience`, in
dictionary (insertion) order. -/
def exp_phrases : List (String × ℕ) :=
  [("entry level", 0), ("junior", 1), ("mid-level", 3), ("mid level", 3),
   ("intermediate", 3), ("senior", 5), ("experienced", 4), ("principal", 8),
   ("lead", 6), ("manager", 5), ("director", 8), ("executive", 10)]

/-- `extract_years_from_experience` from `resume_matcher.py`, on the string
form of the job-experience requirement (the dictionary-coercion branch of the
source is outside this typed model): the five year regexes are tried in
order with `re.IGNORECASE` (modeled by lowering the text), then the
seniority-phrase substring table. -/
def extract_years_from_experience (experience_text : String) : Option ℕ :=
  let cs := pyLower experience_text
  match reSearch matchP1At cs with
  | some n => some n
  | none =>
  match reSearch matchP2At cs with
  | some n => some n
  | none =>
  match reSearch matchP3At cs with
  | some n => some n
  | none =>
  match reSearch matchP4At cs with
  | some n => some n
  | none =>
  match reSearch matchP5At cs with
  | some n => some n
  | none => (exp_phrases.find? (fun p => listIn p.1.toList cs)).map Prod.snd

/-- Pattern `20\d{2}|19\d{2}` at one position. -/
def matchYearAt (cs : List Char) : Option ℕ :=
  match cs with
  | c1 :: c2 :: c3 :: c4 :: _ =>
    if c1 = '2' && c2 = '0' && c3.isDigit && c4.isDigit then
      some (2000 + 10 * (c3.toNat - 48) + (c4.toNat - 48))
    else if c1 = '1' && c2 = '9' && c3.isDigit && c4.isDigit then
      some (1900 + 10 * (c3.toNat - 48) + (c4.toNat - 48))
    else none
  | _ => none

/-- `extract_year_from_date` from `resume_matcher.py` (the matched year as a
number; the source returns it as a digit string and converts with `float`). -/
def extract_year_from_date (date_str : String) : Option ℕ :=
  if date_str = "" then none
  else reSearch matchYearAt date_str.toList

/-- One resume experience entry (the dictionary fields read by the scorer).
`years = some none` models a present `years` key whose `float()` conversion
raises and is swallowed; `years = some (some q)` a convertible value. -/
structure ExpEntry where
  title : Option String
  years : Option (Option ℚ)
  duration : Option String
  start_date : Option String
  end_date : Option String

/-- Pattern `(\d+)\s*<unit>` at one position (for `duration` parsing). -/
def matchNumUnitAt (unit : List Char) (cs : List Char) : Option ℕ :=
  match takeDigits cs with
  | none => none
  | some (n, r0) =>
    match dropLit unit (r0.dropWhile isSpace) with
    | some _ => some n
    | none => none

/-- The contribution of one entry to `calculate_total_experience_years`:
`years` first, then `duration` ("X years Y months"), then a start/end date
pair (both years must parse; the `Present` string comparison in the source is
dead code because `extract_year_from_date` never returns a non-numeric). -/
def entryYears (e : ExpEntry) : ℚ :=
  match e.years with
  | some (some q) => q
  | some none => 0
  | none =>
    match e.duration with
    | some d =>
      let dl := pyLower d
      let y : ℚ := match reSearch (matchNumUnitAt "year".toList) dl with
        | some n => n
        | none => 0
      let m : ℚ := match reSearch (matchNumUnitAt "month".toList) dl with
        | some n => (n : ℚ) / 12
        | none => 0
      y + m
    | none =>
      match e.start_date, e.end_date with
      | some sd, some ed =>
        match extract_year_from_date sd, extract_year_from_date ed with
        | some sy, some ey => max 0 ((ey : ℚ) - (sy : ℚ))
        | _, _ => 0
      | _, _ => 0

/-- `calculate_total_experience_years` from `resume_matcher.py`. -/
def calculate_total_experience_years (entries : List ExpEntry) : ℚ :=
  pyround ((entries.map entryYears).sum) 1

/-- The `seniority_levels` table of `match_seniority_level`, in dictionary
(insertion) order. -/
def seniority_levels : List (String × ℚ) :=
  [("entry", 1/5), ("junior", 2/5), ("mid", 3/5), ("senior", 4/5),
   ("lead", 9/10), ("principal", 1), ("staff", 9/10), ("manager", 9/10),
   ("director", 1), ("vp", 1), ("head", 1), ("chief", 1)]

/-- Mapping of total resume years to a seniority score (the if-ladder of
`match_seniority_level`). -/
def yearsToSeniority (total_years : ℚ) : ℚ :=
  if 10 ≤ total_years then 1
  else if 8 ≤ total_years then 9/10
  else if 5 ≤ total_years then 4/5
  else if 3 ≤ total_years then 3/5
  else if 1 ≤ total_years then 2/5
  else 1/5

/-- The per-entry title scan of `match_seniority_level`: raise the resume
seniority to the level score of every table entry whose key occurs in the
lowered title. -/
def titleBoost (acc : ℚ) (e : ExpEntry) : ℚ :=
  let title := pyLower (e.title.getD "")
  seniority_levels.foldl (fun a p => if listIn p.1.toList title then max a p.2 else a) acc

/-- The job-side seniority estimate of `match_seniority_level`: the first
table entry whose key occurs in the lowered job text, default mid-level 0.5. -/
def jobSeniority (job_experience : String) : ℚ :=
  match seniority_levels.find? (fun p => listIn p.1.toList (pyLower job_experience)) with
  | some p => p.2
  | none => 1/2

/-- The resume-side seniority estimate of `match_seniority_level`: the
years-based score raised by any seniority keyword in an entry title. -/
def resumeSeniority (resume_experience : List ExpEntry) : ℚ :=
  resume_experience.foldl titleBoost
    (yearsToSeniority (calculate_total_experience_years resume_experience))

/-- `match_seniority_level` from `resume_matcher.py`. -/
def match_seniority_level (resume_experience : List ExpEntry) (job_experience : String) : ℚ :=
  if jobSeniority job_experience ≤ resumeSeniority resume_experience then 1
  else if 0 < jobSeniority job_experience then
    resumeSeniority resume_experience / jobSeniority job_experience
  else 1

/-- Result dictionary of `calculate_experience_match` (without `details`). -/
structure ExperienceMatchResult where
  score : ℚ
  years_required : Option ℕ
  years_matched : Option ℚ
  match_percentage : ℚ

/-- `calculate_experience_match` from `resume_matcher.py`. -/
def calculate_experience_match (resume_experience : List ExpEntry) (job_experience : String)
    (config : Config) : ExperienceMatchResult :=
  if job_experience = "" then
    { score := 1, years_required := none, years_matched := none, match_percentage := 100 }
  else
    match extract_years_from_experience job_experience with
    | none =>
      let seniority_score := match_seniority_level resume_experience job_experience
      { score := seniority_score, years_required := none, years_matched := none,
        match_percentage := pyround (seniority_score * 100) 1 }
    | some job_years =>
      let resume_years := calculate_total_experience_years resume_experience
      if 0 < job_years then
        if (job_years : ℚ) ≤ resume_years then
          { score := pyround 1 2, years_required := some job_years,
            years_matched := some resume_years, match_percentage := pyround 100 1 }
        else
          { score := pyround (resume_years / job_years) 2, years_required := some job_years,
            years_matched := some resume_years,
            match_percentage := pyround (resume_years / job_years * 100) 1 }
      else
        { score := pyround 1 2, years_required := some job_years,
          years_matched := some resume_years, match_percentage := pyround 100 1 }

/-- One resume education entry (the dictionary fields read by the scorer). -/
structure EduEntry where
  degree : Option String
  field : Option String

/-- The `degree_patterns` table of `extract_degree_requirements`, in
dictionary (insertion) order. -/
def degree_patterns : List (String × List String) :=
  [("bachelor", ["bachelor", "bachelors", "bachelor\x27s", "bs", "ba", "b.s.", "b.a.",
                 "undergraduate"]),
   ("master", ["master", "masters", "master\x27s", "ms", "ma", "m.s.", "m.a.", "graduate"]),
   ("doctorate", ["ph.d", "phd", "doctorate", "doctoral", "doctor of philosophy"]),
   ("associate", ["associate", "associates", "associate\x27s", "aa", "a.a.", "a.s."])]

/-- `extract_degree_requirements` from `resume_matcher.py`; the final
`list(set(...))` is modeled as order-preserving de-duplication (only the
membership of the result affects any score). -/
def extract_degree_requirements (education_requirements : List String) : List String :=
  (education_requirements.bind (fun req =>
     degree_patterns.filterMap (fun dp =>
       if dp.2.any (fun pat => listIn pat.toList (pyLower req)) then some dp.1 else none))).dedup

/-- The `common_fields` table of `extract_field_requirements`. -/
def common_fields : List String :=
  ["computer science", "information technology", "software engineering",
   "data science", "mathematics", "statistics", "engineering",
   "business", "finance", "economics", "marketing", "accounting",
   "biology", "chemistry", "physics", "psychology", "sociology",
   "communications", "english", "history", "arts",
   "healthcare", "nursing", "medicine", "pharmacy"]

/-- `extract_field_requirements` from `resume_matcher.py`. -/
def extract_field_requirements (education_requirements : List String) : List String :=
  (education_requirements.bind (fun req =>
     common_fields.filter (fun f => listIn f.toList (pyLower req)))).dedup

/-- Substring test against the space-padded degree text, for checks of the
shape `pat in padded` where `padded` is the degree text with a space added on
each side, as in `extract_degrees_from_resume`. -/
def padIn (sub : String) (degree : List Char) : Bool :=
  listIn sub.toList (' ' :: (degree ++ [' ']))

/-- The if/elif classification of one lowered resume degree text in
`extract_degrees_from_resume`. -/
def classifyResumeDegree (degree : List Char) : Option String :=
  if listIn "bachelor".toList degree || padIn " bs " degree || padIn " ba " degree
      || listIn "b.s".toList degree || listIn "b.a".toList degree then some "bachelor"
  else if listIn "master".toList degree || padIn " ms " degree || padIn " ma " degree
      || listIn "m.s".toList degree || listIn "m.a".toList degree then some "master"
  else if listIn "phd".toList degree || listIn "ph.d".toList degree
      || listIn "doctor".toList degree then some "doctorate"
  else if listIn "associate".toList degree || listIn "a.a".toList degree
      || listIn "a.s".toList degree then some "associate"
  else none

/-- `extract_degrees_from_resume` from `resume_matcher.py`. -/
def extract_degrees_from_resume (education_entries : List EduEntry) : List String :=
  (education_entries.filterMap (fun e =>
     classifyResumeDegree (pyLower (e.degree.getD "")))).dedup

/-- Pattern `in\s+([A-Za-z\s]+)` at one position (on lowered text), returning
`group(1)`: after `in` and a maximal whitespace run, a maximal letter/space
run if non-empty; otherwise, when the whitespace run has length at least two,
the regex backtracks one step and the group is the final whitespace
character. -/
def fieldFromDegreeAt (cs : List Char) : Option (List Char) :=
  match cs with
  | 'i' :: 'n' :: rest =>
    let w := rest.takeWhile isSpace
    if w.isEmpty then none
    else
      let after := rest.drop w.length
      let g := after.takeWhile (fun c => c.isAlpha || isSpace c)
      if !g.isEmpty then some g
      else if 2 ≤ w.length then some [w.getLastD ' ']
      else none
  | _ => none

/-- `extract_fields_from_resume` from `resume_matcher.py`: the non-empty
`field` values lowered, plus the `in <field>` group mined from the degree
text when the degree text contains `"in "`. -/
def extract_fields_from_resume (education_entries : List EduEntry) : List String :=
  (education_entries.bind (fun e =>
     let fieldPart :=
       match e.field with
       | some f => if f = "" then [] else [String.mk (pyLower f)]
       | none => []
     let degreePart :=
       if listIn "in ".toList (pyLower (e.degree.getD "")) then
         match reSearch fieldFromDegreeAt (pyLower (e.degree.getD "")) with
         | some g => [String.mk g]
         | none => []
       else []
     fieldPart ++ degreePart)).dedup

/-- The `related_fields` similarity table of `field_similarity`. -/
def related_fields : List (String × List (String × ℚ)) :=
  [("computer science",
    [("software engineering", 9/10), ("information technology", 4/5), ("data science", 4/5),
     ("information systems", 7/10), ("mathematics", 3/5), ("engineering", 3/5)]),
   ("data science",
    [("statistics", 9/10), ("mathematics", 4/5), ("computer science", 4/5),
     ("analytics", 9/10), ("machine learning", 9/10)]),
   ("business",
    [("finance", 4/5), ("marketing", 7/10), ("economics", 4/5), ("management", 9/10),
     ("accounting", 7/10), ("mba", 9/10)]),
   ("engineering",
    [("mechanical engineering", 9/10), ("electrical engineering", 4/5),
     ("civil engineering", 7/10), ("computer engineering", 4/5),
     ("software engineering", 7/10)])]

/-- Lookup `related_fields[key][other]` (both levels by dictionary key). -/
def lookupRelated (key other : String) : Option ℚ :=
  match related_fields.find? (fun p => p.1 == key) with
  | none => none
  | some p =>
    match p.2.find? (fun q => q.1 == other) with
    | none => none
    | some q => some q.2

/-- `field_similarity` from `resume_matcher.py`: exact match, the curated
table looked up in both directions, substring containment at `0.7`, default
`0.2`. -/
def field_similarity (resume_field required_field : String) : ℚ :=
  if resume_field = required_field then 1
  else
    match lookupRelated required_field resume_field with
    | some s => s
    | none =>
      match lookupRelated resume_field required_field with
      | some s => s
      | none =>
        if listIn required_field.toList resume_field.toList
            || listIn resume_field.toList required_field.toList then 7/10
        else 1/5

/-- The `degree_hierarchy.get(d, 0)` lookup of `calculate_degree_match_score`. -/
def degreeLevel (d : String) : ℕ :=
  if d = "associate" then 1
  else if d = "bachelor" then 2
  else if d = "master" then 3
  else if d = "doctorate" then 4
  else 0

/-- `calculate_degree_match_score` from `resume_matcher.py`. -/
def calculate_degree_match_score (resume_degree required_degree : String) : ℚ :=
  let resume_level := degreeLevel resume_degree
  let required_level := degreeLevel required_degree
  if resume_degree = required_degree then 1
  else if required_level < resume_level then 1
  else if 0 < resume_level ∧ 0 < required_level then (resume_level : ℚ) / required_level
  else 0

/-- The `matched_degrees` accumulation loop of `calculate_education_match`. -/
def matchedDegrees (required_degrees resume_degrees : List String) : List String :=
  required_degrees.bind (fun rq =>
    resume_degrees.filterMap (fun rs =>
      if 0 < calculate_degree_match_score rs rq then some rq else none))

/-- The `degree_match_score` max-accumulation loop of
`calculate_education_match`. -/
def degreeMatchScore (required_degrees resume_degrees : List String) : ℚ :=
  required_degrees.foldl (fun acc rq =>
    resume_degrees.foldl (fun acc2 rs =>
      if 0 < calculate_degree_match_score rs rq then
        max acc2 (calculate_degree_match_score rs rq)
      else acc2) acc) 0

/-- The `matched_fields` accumulation loop of `calculate_education_match`. -/
def matchedFields (required_fields resume_fields : List String) : List String :=
  required_fields.bind (fun rf =>
    resume_fields.filterMap (fun sf =>
      if 7/10 ≤ field_similarity sf rf then some rf else none))

/-- Result dictionary of `calculate_education_match` (without `details`). -/
structure EducationMatchResult where
  score : ℚ
  degree_required : Option (List String)
  degree_matched : Bool
  field_match : Option (List String)
  match_percentage : ℚ

/-- `calculate_education_match` from `resume_matcher.py`. -/
def calculate_education_match (resume_education : List EduEntry) (job_education : List String)
    (config : Config) : EducationMatchResult :=
  if job_education = [] then
    { score := 1, degree_required := none, degree_matched := true, field_match := none,
      match_percentage := 100 }
  else
    let required_degrees := extract_degree_requirements job_education
    let required_fields := extract_field_requirements job_education
    let resume_degrees := extract_degrees_from_resume resume_education
    let resume_fields := extract_fields_from_resume resume_education
    let degree_match_score := degreeMatchScore required_degrees resume_degrees
    let md := matchedDegrees required_degrees resume_degrees
    let mf := matchedFields required_fields resume_fields
    let field_match_score : ℚ :=
      if required_fields = [] then 1 else if mf.isEmpty then 0 else 1
    let combined_score := 7/10 * degree_match_score + 3/10 * field_match_score
    { score := pyround combined_score 2,
      degree_required := some required_degrees,
      degree_matched := if required_degrees = [] then true else !md.isEmpty,
      field_match := some mf,
      match_percentage := pyround (combined_score * 100) 1 }

/-- Matches of `re.findall` for the pattern `\b\w+\b`: the number of maximal
word-character runs, scanning with the wordness of the previous character. -/
def countWordRuns : Bool → List Char → ℕ
  | _, [] => 0
  | prevW, c :: rest =>
    (if !prevW && isWordChar c then 1 else 0) + countWordRuns (isWordChar c) rest

/-- The greedy separator match of `re.split` with the blank-line pattern
(newline, `\s*`, newline, or the carriage-return variant) at one position:
its length when it matches. For the first alternative, `\s*` greedily ends
just before the last newline inside the maximal whitespace run that follows
the opening newline; analogously with carriage-return/newline pairs for the
second alternative. -/
def matchSepAt (cs : List Char) : Option ℕ :=
  match cs with
  | '\n' :: rest =>
    let w := rest.takeWhile isSpace
    match ((List.range w.length).filter (fun i => w.getD i ' ' = '\n')).getLast? with
    | some m => some (m + 2)
    | none => none
  | '\r' :: '\n' :: rest2 =>
    let w := rest2.takeWhile isSpace
    match ((List.range w.length).filter
        (fun i => w.getD i ' ' = '\r' && w.getD (i + 1) 'x' = '\n')).getLast? with
    | some m => some (m + 4)
    | none => none
  | _ => none

/-- Scanner of `re.split`: cut a section at each separator match; the fuel is
an upper bound on the scan length (every step consumes at least one
character). -/
def pySplitAux : ℕ → List Char → List Char → List (List Char)
  | 0, acc, _ => [acc.reverse]
  | _ + 1, acc, [] => [acc.reverse]
  | fuel + 1, acc, c :: rest =>
    match matchSepAt (c :: rest) with
    | some len => acc.reverse :: pySplitAux fuel [] ((c :: rest).drop len)
    | none => pySplitAux fuel (c :: acc) rest

/-- `re.split` with the blank-line separator pattern: the
blank-line-separated sections of a text (always at least one, possibly
empty). -/
def pySplitSections (s : String) : List (List Char) :=
  pySplitAux (s.toList.length + 1) [] s.toList

/-- Order-preserving de-duplication keeping first occurrences (the key order
of a Python dict built by repeated assignment). -/
def pyDedup (l : List String) : List String :=
  l.foldl (fun acc x => if acc.contains x then acc else acc ++ [x]) []

/-- Result dictionary of `calculate_keyword_density`; `keyword_count` is the
keyword-to-occurrence-count dict as an association list in key-insertion
order. -/
structure KeywordDensityResult where
  score : ℚ
  keyword_count : List (String × ℕ)
  density : ℚ
  distribution : ℚ

/-- `calculate_keyword_density` from `resume_matcher.py`. -/
def calculate_keyword_density (resume_text : String) (job_keywords : List String) :
    KeywordDensityResult :=
  if resume_text = "" ∨ job_keywords = [] then
    { score := 0, keyword_count := [], density := 0, distribution := 0 }
  else
    let textLower := pyLower resume_text
    let total_words := countWordRuns false textLower
    if total_words = 0 then
      { score := 0, keyword_count := [], density := 0, distribution := 0 }
    else
      let keyword_count := (pyDedup job_keywords).filterMap (fun k =>
        let c := countWholeWord (pyLower k) textLower
        if 0 < c then some (k, c) else none)
      let total_keywords := (keyword_count.map Prod.snd).sum
      let density : ℚ := (total_keywords : ℚ) / (total_words : ℚ)
      let sections := pySplitSections resume_text
      let sections_with_keywords := (sections.filter (fun sec =>
        job_keywords.any (fun k => wwSearch (pyLower k) (sec.map Char.toLower)))).length
      let distribution : ℚ :=
        if sections = [] then 0 else (sections_with_keywords : ℚ) / (sections.length : ℚ)
      let score := 7/10 * min (density * 50) 1 + 3/10 * distribution
      { score := pyround score 2, keyword_count := keyword_count,
        density := pyround (density * 100) 2, distribution := pyround (distribution * 100) 2 }

/-- Result dictionary of `calculate_content_similarity` (`score` and the
percentage `similarity`; the `top_matching_sections` previews are
presentation-only and omitted). -/
structure ContentSimilarityResult where
  score : ℚ
  similarity : ℚ

/-- `calculate_content_similarity` from `resume_matcher.py`. The TF-IDF
vectorization and cosine similarities are computed by the external sklearn
library; they are modeled by the oracle argument `tfidf`: applied to the
document list `[job_responsibilities] + sections`, `none` models a
vectorization failure (the `except` fallback) and `some sims` the cosine
similarity of each section against the responsibilities vector. -/
def calculate_content_similarity (tfidf : List String → Option (List ℚ))
    (resume_text : String) (responsibilities : List String) : ContentSimilarityResult :=
  let job_responsibilities := String.intercalate " " responsibilities
  if resume_text = "" ∨ job_responsibilities = "" then
    { score := 0, similarity := 0 }
  else
    let sections := (pySplitSections resume_text).map String.mk
    match tfidf (job_responsibilities :: sections) with
    | none => { score := 0, similarity := 0 }
    | some sims =>
      let max_similarity : ℚ :=
        match sims with
        | [] => 0
        | h :: t => t.foldl max h
      let avg_similarity : ℚ := if sims = [] then 0 else sims.sum / (sims.length : ℚ)
      let overall_score := 7/10 * max_similarity + 3/10 * avg_similarity
      { score := pyround overall_score 2, similarity := pyround (max_similarity * 100) 1 }

/-- The parsed resume record consumed by `calculate_match_score`. -/
structure ResumeData where
  skills : List String
  experience : List ExpEntry
  education : List EduEntry
  raw_text : String

/-- The analyzed job-description record consumed by `calculate_match_score`. -/
structure JobAnalysis where
  skills : List String
  priority_skills : List String
  experience : String
  education : List String
  responsibilities : List String

/-- The match report assembled by `calculate_match_score` (without the
improvement-suggestion sentences, which are presentation-only strings). -/
structure MatchReport where
  overall_score : ℚ
  ranking : String
  percentile : String
  skill_analysis : SkillMatchResult
  experience_analysis : ExperienceMatchResult
  education_analysis : EducationMatchResult
  keyword_density : KeywordDensityResult
  content_similarity : ContentSimilarityResult

/-- The ranking/percentile tier ladder of `calculate_match_score`. -/
def rankingOf (overall_score : ℚ) : String × String :=
  if 9/10 ≤ overall_score then ("Excellent Match", "Top 10%")
  else if 4/5 ≤ overall_score then ("Strong Match", "Top 20%")
  else if 7/10 ≤ overall_score then ("Good Match", "Top 30%")
  else if 3/5 ≤ overall_score then ("Fair Match", "Top 40%")
  else ("Needs Improvement", "Below Average")

/-- The weighted-average overall score of `calculate_match_score`, rounded to
two decimals. -/
def overallScore (skill experience education : ℚ) (config : Config) : ℚ :=
  pyround ((skill * config.skill_weight + experience * config.experience_weight
      + education * config.education_weight)
    / (config.skill_weight + config.experience_weight + config.education_weight)) 2

/-- `calculate_match_score` from `resume_matcher.py` (the `tfidf` oracle is
threaded to `calculate_content_similarity`). -/
def calculate_match_score (tfidf : List String → Option (List ℚ))
    (resume_data : ResumeData) (job_analysis : JobAnalysis) (config : Config) : MatchReport :=
  let skill_score := calculate_skill_match resume_data.skills job_analysis.skills
      job_analysis.priority_skills config
  let experience_score := calculate_experience_match resume_data.experience
      job_analysis.experience config
  let education_score := calculate_education_match resume_data.education
      job_analysis.education config
  let overall_score := overallScore skill_score.score experience_score.score
      education_score.score config
  { overall_score := overall_score,
    ranking := (rankingOf overall_score).1,
    percentile := (rankingOf overall_score).2,
    skill_analysis := skill_score,
    experience_analysis := experience_score,
    education_analysis := education_score,
    keyword_density := calculate_keyword_density resume_data.raw_text job_analysis.skills,
    content_similarity := calculate_content_similarity tfidf resume_data.raw_text
      job_analysis.responsibilities }

section Lemmas

/-- `listIn` decides list infixhood (the Python substring test). -/
theorem listIn_iff (a : List Char) : ∀ l : List Char, listIn a l = true ↔ a <:+: l := by
  intro l
  induction l with
  | nil =>
    simp [listIn, List.isEmpty_iff]
  | cons c rest ih =>
    simp only [listIn, Bool.or_eq_true, List.isPrefixOf_iff_prefix, ih, List.infix_cons_iff]

/-- Field equations of `calculate_skill_match` on a non-empty job-skills list. -/
theorem csm_matched_skills (rs js ps : List String) (cfg : Config) (h : js ≠ []) :
    (calculate_skill_match rs js ps cfg).matched_skills = matchedSkills rs js := by
  simp only [calculate_skill_match, if_neg h]

theorem csm_missing_skills (rs js ps : List String) (cfg : Config) (h : js ≠ []) :
    (calculate_skill_match rs js ps cfg).missing_skills = missingSkills rs js := by
  simp only [calculate_skill_match, if_neg h]

theorem csm_priority_matched (rs js ps : List String) (cfg : Config) (h : js ≠ []) :
    (calculate_skill_match rs js ps cfg).priority_matched = priMatched rs ps := by
  simp only [calculate_skill_match, if_neg h]

theorem csm_priority_missing (rs js ps : List String) (cfg : Config) (h : js ≠ []) :
    (calculate_skill_match rs js ps cfg).priority_missing = priMissing rs ps := by
  simp only [calculate_skill_match, if_neg h]

theorem csm_score (rs js ps : List String) (cfg : Config) (h : js ≠ []) :
    (calculate_skill_match rs js ps cfg).score = pyround (skillScore rs js ps cfg) 2 := by
  simp only [calculate_skill_match, if_neg h]

theorem csm_match_percentage (rs js ps : List String) (cfg : Config) (h : js ≠ []) :
    (calculate_skill_match rs js ps cfg).match_percentage
      = pyround (((matchedSkills rs js).length : ℚ) / js.length * 100) 1 := by
  simp only [calculate_skill_match, if_neg h, if_pos (List.length_pos.mpr h)]

/-- Semantics of the job-skill membership test: equality with some lowered
resume skill, or substring containment in one. -/
theorem skillMatchedB_iff (rs : List String) (s : String) :
    skillMatchedB (rs.map pyLower) s = true
      ↔ ∃ r ∈ rs, pyLower s = pyLower r ∨ pyLower s <:+: pyLower r := by
  simp only [skillMatchedB, Bool.or_eq_true, List.any_eq_true, List.mem_map, listIn_iff]
  simp only [List.contains_iff_exists_mem_beq, List.mem_map, beq_iff_eq]
  constructor
  · rintro (⟨x, ⟨r, hr, hx⟩, he⟩ | ⟨x, ⟨r, hr, hx⟩, hinf⟩)
    · exact ⟨r, hr, Or.inl (by rw [he, hx])⟩
    · exact ⟨r, hr, Or.inr (hx ▸ hinf)⟩
  · rintro ⟨r, hr, he | hinf⟩
    · exact Or.inl ⟨pyLower r, ⟨r, hr, rfl⟩, he⟩
    · exact Or.inr ⟨pyLower r, ⟨r, hr, rfl⟩, hinf⟩

/-- `roundHalfEven` returns the floor or the floor plus one. -/
theorem roundHalfEven_cases (x : ℚ) : roundHalfEven x = ⌊x⌋ ∨ roundHalfEven x = ⌊x⌋ + 1 := by
  simp only [roundHalfEven]
  split_ifs <;> simp

/-- Rounding a nonnegative value is nonnegative. -/
theorem roundHalfEven_nonneg {x : ℚ} (h : 0 ≤ x) : 0 ≤ roundHalfEven x := by
  have hfl : (0 : ℤ) ≤ ⌊x⌋ := Int.le_floor.mpr (by exact_mod_cast h)
  rcases roundHalfEven_cases x with hc | hc <;> rw [hc] <;> omega

/-- Rounding a value at most an integer `m` stays at most `m`. -/
theorem roundHalfEven_le_of_le {x : ℚ} {m : ℤ} (h : x ≤ m) : roundHalfEven x ≤ m := by
  have hfl : ⌊x⌋ ≤ m := by
    have := Int.floor_le_floor h
    rwa [Int.floor_intCast] at this
  simp only [roundHalfEven]
  split_ifs with h1 h2 h3
  · exact hfl
  · have hlt : (⌊x⌋ : ℚ) < x := by linarith
    have : ⌊x⌋ < m := by exact_mod_cast hlt.trans_le h
    omega
  · exact hfl
  · have hlt : (⌊x⌋ : ℚ) < x := by
      have := not_lt.mp h1
      linarith
    have : ⌊x⌋ < m := by exact_mod_cast hlt.trans_le h
    omega

/-- `pyround` preserves nonnegativity. -/
theorem pyround_nonneg {x : ℚ} (h : 0 ≤ x) (n : ℕ) : 0 ≤ pyround x n := by
  unfold pyround
  have hm : (0 : ℚ) < (((10 : ℕ) ^ n : ℕ) : ℚ) := by positivity
  apply div_nonneg _ hm.le
  exact_mod_cast roundHalfEven_nonneg (mul_nonneg h hm.le)

/-- `pyround` preserves being at most one (for inputs at most one). -/
theorem pyround_le_one {x : ℚ} (h : x ≤ 1) (n : ℕ) : pyround x n ≤ 1 := by
  unfold pyround
  have hm : (0 : ℚ) < (((10 : ℕ) ^ n : ℕ) : ℚ) := by positivity
  rw [div_le_one hm]
  have hle : x * (((10 : ℕ) ^ n : ℕ) : ℚ) ≤ ((((10 : ℕ) ^ n : ℕ) : ℤ) : ℚ) := by
    have h2 : x * (((10 : ℕ) ^ n : ℕ) : ℚ) ≤ 1 * (((10 : ℕ) ^ n : ℕ) : ℚ) :=
      mul_le_mul_of_nonneg_right h (by positivity)
    push_cast at h2 ⊢
    linarith
  exact_mod_cast roundHalfEven_le_of_le hle

/-- A property preserved by every step of a fold holds of the fold. -/
theorem foldl_preserve {α β : Type} (P : β → Prop) (step : β → α → β) (l : List α)
    (hstep : ∀ b a, a ∈ l → P b → P (step b a)) : ∀ b, P b → P (l.foldl step b) := by
  induction l with
  | nil => intro b hb; exact hb
  | cons a t ih =>
    intro b hb
    simp only [List.foldl_cons]
    exact ih (fun b' a' ha' hb' => hstep b' a' (List.mem_cons_of_mem _ ha') hb') _
      (hstep b a (List.mem_cons_self _ _) hb)

/-- The unrounded skill score lies in the unit interval whenever the priority
list is no longer than the job list and the bonus is nonnegative. -/
theorem skillScore_mem (rs js ps : List String) (cfg : Config)
    (hps : ps.length ≤ js.length) (hb : 0 ≤ cfg.priority_skill_bonus) :
    0 ≤ skillScore rs js ps cfg ∧ skillScore rs js ps cfg ≤ 1 := by
  simp only [skillScore]
  refine ⟨?_, min_le_left _ _⟩
  by_cases hpos : 0 < js.length
  · simp only [if_pos hpos]
    have hmcle : (matchedSkills rs js).length ≤ js.length := by
      simp only [matchedSkills]
      exact List.length_filter_le _ _
    have h1 : (0 : ℚ) ≤ ((matchedSkills rs js).length : ℚ) / js.length := by positivity
    have h2 : (0 : ℚ) ≤ (ps.length : ℚ) / js.length := by positivity
    have h3 : (ps.length : ℚ) / js.length ≤ 1 := by
      rw [div_le_one (by exact_mod_cast hpos)]
      exact_mod_cast hps
    have h4 : (0 : ℚ) ≤ (if ps = [] then (0 : ℚ)
        else ((priMatched rs ps).length : ℚ) / (ps.length : ℚ) * cfg.priority_skill_bonus) := by
      split_ifs
      · exact le_refl 0
      · exact mul_nonneg (by positivity) hb
    refine le_min (by norm_num) ?_
    have h5 : (0 : ℚ) ≤ ((matchedSkills rs js).length : ℚ) / js.length
        * (1 - (ps.length : ℚ) / js.length) := mul_nonneg h1 (by linarith)
    exact add_nonneg h5 (mul_nonneg h4 h2)
  · have hjs : js.length = 0 := by omega
    have hps0 : ps = [] := List.length_eq_zero.mp (by omega)
    simp only [hjs, hps0, if_neg hpos]
    norm_num

/-- The rounded skill score of `calculate_skill_match` lies in the unit
interval under the same hypotheses. -/
theorem calculate_skill_match_score_mem (rs js ps : List String) (cfg : Config)
    (hps : ps.length ≤ js.length) (hb : 0 ≤ cfg.priority_skill_bonus) :
    0 ≤ (calculate_skill_match rs js ps cfg).score
      ∧ (calculate_skill_match rs js ps cfg).score ≤ 1 := by
  unfold calculate_skill_match
  split_ifs
  · exact ⟨zero_le_one, le_refl 1⟩
  all_goals
    obtain ⟨h0, h1⟩ := skillScore_mem rs js ps cfg hps hb
    exact ⟨pyround_nonneg h0 _, pyround_le_one h1 _⟩

/-- Entry contributions are nonnegative for entries whose `years` field,
when present and convertible, is nonnegative. -/
theorem entryYears_nonneg (e : ExpEntry) (h : ∀ q, e.years = some (some q) → 0 ≤ q) :
    0 ≤ entryYears e := by
  obtain ⟨t, yrs, dur, sdate, edate⟩ := e
  cases yrs with
  | some o =>
    cases o with
    | some q => exact h q rfl
    | none => exact le_refl 0
  | none =>
    cases dur with
    | some d =>
      dsimp only [entryYears]
      apply add_nonneg
      · split <;> positivity
      · split <;> positivity
    | none =>
      cases sdate with
      | none => exact le_refl 0
      | some sd =>
        cases edate with
        | none => exact le_refl 0
        | some ed =>
          dsimp only [entryYears]
          split
          · exact le_max_left (0 : ℚ) _
          · exact le_refl 0

/-- Total resume years are nonnegative under the same data-model hypothesis. -/
theorem total_years_nonneg (entries : List ExpEntry)
    (h : ∀ e ∈ entries, ∀ q, e.years = some (some q) → 0 ≤ q) :
    0 ≤ calculate_total_experience_years entries := by
  unfold calculate_total_experience_years
  apply pyround_nonneg
  apply List.sum_nonneg
  intro x hx
  rcases List.mem_map.mp hx with ⟨e, he, rfl⟩
  exact entryYears_nonneg e (h e he)

/-- Every entry of the seniority table has a score in `(0, 1]`. -/
theorem seniority_table_bounds : ∀ p ∈ seniority_levels, 0 < p.2 ∧ p.2 ≤ 1 := by
  intro p hp
  fin_cases hp <;> norm_num

/-- The job-side seniority estimate lies in `(0, 1]`. -/
theorem jobSeniority_mem (job : String) : 0 < jobSeniority job ∧ jobSeniority job ≤ 1 := by
  unfold jobSeniority
  cases hf : seniority_levels.find? (fun p => listIn p.1.toList (pyLower job)) with
  | none => norm_num
  | some p => exact seniority_table_bounds p (List.mem_of_find?_eq_some hf)

/-- The years-to-seniority ladder lies in `(0, 1]`. -/
theorem yearsToSeniority_mem (t : ℚ) : 0 < yearsToSeniority t ∧ yearsToSeniority t ≤ 1 := by
  unfold yearsToSeniority
  split_ifs <;> norm_num

/-- The title scan preserves membership in `(0, 1]`. -/
theorem titleBoost_mem (acc : ℚ) (e : ExpEntry) (h : 0 < acc ∧ acc ≤ 1) :
    0 < titleBoost acc e ∧ titleBoost acc e ≤ 1 := by
  unfold titleBoost
  apply foldl_preserve (fun x => 0 < x ∧ x ≤ 1) _ seniority_levels ?_ acc h
  intro b p hp hb
  split_ifs
  · exact ⟨lt_max_iff.mpr (Or.inl hb.1), max_le hb.2 (seniority_table_bounds p hp).2⟩
  · exact hb

/-- The resume-side seniority estimate lies in `(0, 1]`. -/
theorem resumeSeniority_mem (res : List ExpEntry) :
    0 < resumeSeniority res ∧ resumeSeniority res ≤ 1 := by
  unfold resumeSeniority
  exact foldl_preserve (fun x => 0 < x ∧ x ≤ 1) titleBoost res
    (fun b a _ hb => titleBoost_mem b a hb) _ (yearsToSeniority_mem _)

/-- The seniority-based experience score lies in the unit interval. -/
theorem match_seniority_level_mem (res : List ExpEntry) (job : String) :
    0 ≤ match_seniority_level res job ∧ match_seniority_level res job ≤ 1 := by
  unfold match_seniority_level
  obtain ⟨hj1, hj2⟩ := jobSeniority_mem job
  obtain ⟨hr1, hr2⟩ := resumeSeniority_mem res
  split_ifs with h1 _h2
  · norm_num
  · refine ⟨div_nonneg hr1.le hj1.le, ?_⟩
    rw [div_le_one hj1]
    exact (not_le.mp h1).le

/-- The experience sub-score lies in the unit interval under the data-model
hypothesis on `years` fields. -/
theorem calculate_experience_match_score_mem (res : List ExpEntry) (job : String) (cfg : Config)
    (h : ∀ e ∈ res, ∀ q, e.years = some (some q) → 0 ≤ q) :
    0 ≤ (calculate_experience_match res job cfg).score
      ∧ (calculate_experience_match res job cfg).score ≤ 1 := by
  unfold calculate_experience_match
  split_ifs with h1
  · exact ⟨zero_le_one, le_refl 1⟩
  cases hx : extract_years_from_experience job with
  | none =>
    simpa only [hx] using match_seniority_level_mem res job
  | some Y =>
    simp only [hx]
    split_ifs with h2 h3
    · exact ⟨pyround_nonneg (by norm_num) _, pyround_le_one (by norm_num) _⟩
    · have hC := total_years_nonneg res h
      have hY : (0 : ℚ) < (Y : ℚ) := by exact_mod_cast h2
      refine ⟨pyround_nonneg (div_nonneg hC hY.le) _, pyround_le_one ?_ _⟩
      rw [div_le_one hY]
      exact (not_le.mp h3).le
    · exact ⟨pyround_nonneg (by norm_num) _, pyround_le_one (by norm_num) _⟩

/-- Distinct recognized degrees have distinct hierarchy levels. -/
theorem degreeLevel_inj {a b : String} (ha : 0 < degreeLevel a) (hb : 0 < degreeLevel b)
    (h : degreeLevel a = degreeLevel b) : a = b := by
  unfold degreeLevel at ha hb h
  split_ifs at ha hb h <;> simp_all

/-- Semantics of the priority-skill membership test: exact equality with some
lowered resume skill only. -/
theorem priorityMatchedB_iff (rs : List String) (s : String) :
    priorityMatchedB (rs.map pyLower) s = true ↔ ∃ r ∈ rs, pyLower s = pyLower r := by
  simp only [priorityMatchedB, List.contains_iff_exists_mem_beq, List.mem_map, beq_iff_eq]
  constructor
  · rintro ⟨x, ⟨r, hr, hx⟩, he⟩
    exact ⟨r, hr, by rw [he, hx]⟩
  · rintro ⟨r, hr, he⟩
    exact ⟨pyLower r, ⟨r, hr, rfl⟩, he⟩

/-- The degree pair score lies in the unit interval. -/
theorem degree_match_score_mem (rd rq : String) :
    0 ≤ calculate_degree_match_score rd rq ∧ calculate_degree_match_score rd rq ≤ 1 := by
  simp only [calculate_degree_match_score]
  split_ifs with h1 h2 h3
  · norm_num
  · norm_num
  · obtain ⟨hr, hq⟩ := h3
    refine ⟨by positivity, ?_⟩
    rw [div_le_one (by exact_mod_cast hq)]
    exact_mod_cast not_lt.mp h2
  · norm_num

/-- The accumulated best degree score lies in the unit interval. -/
theorem degreeMatchScore_mem (rqs rss : List String) :
    0 ≤ degreeMatchScore rqs rss ∧ degreeMatchScore rqs rss ≤ 1 := by
  unfold degreeMatchScore
  apply foldl_preserve (fun x => 0 ≤ x ∧ x ≤ 1) _ rqs ?_ 0 (by norm_num)
  intro b rq _ hb
  apply foldl_preserve (fun x => 0 ≤ x ∧ x ≤ 1) _ rss ?_ b hb
  intro b2 rs _ hb2
  split_ifs
  · exact ⟨le_trans hb2.1 (le_max_left _ _), max_le hb2.2 (degree_match_score_mem rs rq).2⟩
  · exact hb2

/-- A `0.7 a + 0.3 b` blend of unit-interval values stays in the unit
interval after rounding. -/
theorem blend_7_3_mem (a b : ℚ) (ha0 : 0 ≤ a) (ha1 : a ≤ 1) (hb0 : 0 ≤ b) (hb1 : b ≤ 1) :
    0 ≤ pyround (7/10 * a + 3/10 * b) 2 ∧ pyround (7/10 * a + 3/10 * b) 2 ≤ 1 :=
  ⟨pyround_nonneg (by nlinarith) _, pyround_le_one (by nlinarith) _⟩

/-- The education sub-score lies in the unit interval. -/
theorem calculate_education_match_score_mem (re : List EduEntry) (je : List String)
    (cfg : Config) :
    0 ≤ (calculate_education_match re je cfg).score
      ∧ (calculate_education_match re je cfg).score ≤ 1 := by
  unfold calculate_education_match
  by_cases h1 : je = []
  · rw [if_pos h1]
    exact ⟨zero_le_one, le_refl 1⟩
  rw [if_neg h1]
  obtain ⟨hd0, hd1⟩ := degreeMatchScore_mem (extract_degree_requirements je)
    (extract_degrees_from_resume re)
  apply blend_7_3_mem _ _ hd0 hd1
  · split_ifs <;> norm_num
  · split_ifs <;> norm_num

/-- The keyword-density score lies in the unit interval, unconditionally. -/
theorem calculate_keyword_density_score_mem (text : String) (kws : List String) :
    0 ≤ (calculate_keyword_density text kws).score
      ∧ (calculate_keyword_density text kws).score ≤ 1 := by
  unfold calculate_keyword_density
  by_cases h1 : text = "" ∨ kws = []
  · rw [if_pos h1]
    exact ⟨le_refl 0, zero_le_one⟩
  rw [if_neg h1]
  by_cases h2 : countWordRuns false (pyLower text) = 0
  · rw [if_pos h2]
    exact ⟨le_refl 0, zero_le_one⟩
  rw [if_neg h2]
  apply blend_7_3_mem
  · exact le_min (by positivity) zero_le_one
  · exact min_le_right _ _
  · split_ifs with h3
    · exact le_refl 0
    · positivity
  · split_ifs with h3
    · exact zero_le_one
    · rw [div_le_one (by exact_mod_cast List.length_pos.mpr h3)]
      exact_mod_cast List.length_filter_le _ _

/-- The maximum of a similarity list stays in the unit interval. -/
theorem foldl_max_mem {h : ℚ} {t : List ℚ} (hh : 0 ≤ h ∧ h ≤ 1)
    (ht : ∀ s ∈ t, 0 ≤ s ∧ s ≤ 1) : 0 ≤ t.foldl max h ∧ t.foldl max h ≤ 1 :=
  foldl_preserve (fun x => 0 ≤ x ∧ x ≤ 1) max t
    (fun b a ha hb => ⟨le_trans hb.1 (le_max_left _ _), max_le hb.2 (ht a ha).2⟩) h hh

/-- The content-similarity score lies in the unit interval whenever the
cosine-similarity oracle produces values in the unit interval. -/
theorem calculate_content_similarity_score_mem (tfidf : List String → Option (List ℚ))
    (hsim : ∀ docs sims, tfidf docs = some sims → ∀ s ∈ sims, 0 ≤ s ∧ s ≤ 1)
    (text : String) (resp : List String) :
    0 ≤ (calculate_content_similarity tfidf text resp).score
      ∧ (calculate_content_similarity tfidf text resp).score ≤ 1 := by
  simp only [calculate_content_similarity]
  split_ifs with h1
  · norm_num
  cases ht : tfidf (String.intercalate " " resp
      :: (pySplitSections text).map String.mk) with
  | none => simp only [ht]; norm_num
  | some sims =>
    simp only [ht]
    have hall : ∀ s ∈ sims, 0 ≤ s ∧ s ≤ 1 := hsim _ _ ht
    have hmax : 0 ≤ (match sims with
          | [] => (0 : ℚ)
          | h :: t => t.foldl max h)
        ∧ (match sims with
          | [] => (0 : ℚ)
          | h :: t => t.foldl max h) ≤ 1 := by
      cases sims with
      | nil => norm_num
      | cons h t =>
        exact foldl_max_mem (hall h (List.mem_cons_self _ _))
          (fun s hs => hall s (List.mem_cons_of_mem _ hs))
    have havg : 0 ≤ (if sims = [] then (0 : ℚ) else sims.sum / (sims.length : ℚ))
        ∧ (if sims = [] then (0 : ℚ) else sims.sum / (sims.length : ℚ)) ≤ 1 := by
      split_ifs with hs
      · norm_num
      · have hlen : 0 < (sims.length : ℚ) := by
          exact_mod_cast List.length_pos.mpr hs
        constructor
        · exact div_nonneg (List.sum_nonneg (fun s hs' => (hall s hs').1)) hlen.le
        · rw [div_le_one hlen]
          have := List.sum_le_card_nsmul sims 1 (fun s hs' => (hall s hs').2)
          simpa using this
    exact blend_7_3_mem _ _ hmax.1 hmax.2 havg.1 havg.2

/-- The rounded weighted average of three unit-interval sub-scores with
positive weights lies in the unit interval. -/
theorem overallScore_mem (s e d : ℚ) (cfg : Config)
    (hs : 0 ≤ s ∧ s ≤ 1) (he : 0 ≤ e ∧ e ≤ 1) (hd : 0 ≤ d ∧ d ≤ 1)
    (h1 : 0 < cfg.skill_weight) (h2 : 0 < cfg.experience_weight)
    (h3 : 0 < cfg.education_weight) :
    0 ≤ overallScore s e d cfg ∧ overallScore s e d cfg ≤ 1 := by
  unfold overallScore
  have hden : 0 < cfg.skill_weight + cfg.experience_weight + cfg.education_weight := by
    linarith
  refine ⟨pyround_nonneg ?_ _, pyround_le_one ?_ _⟩
  · apply div_nonneg _ hden.le
    have := mul_nonneg hs.1 h1.le
    have := mul_nonneg he.1 h2.le
    have := mul_nonneg hd.1 h3.le
    linarith
  · rw [div_le_one hden]
    have a1 : s * cfg.skill_weight ≤ cfg.skill_weight := by nlinarith [hs.2, h1.le]
    have a2 : e * cfg.experience_weight ≤ cfg.experience_weight := by nlinarith [he.2, h2.le]
    have a3 : d * cfg.education_weight ≤ cfg.education_weight := by nlinarith [hd.2, h3.le]
    linarith

end Lemmas

/-- C1 (Scenario A, priority-bonus saturation): for job skills
`["python", "sql"]`, priority skills `["python"]`, resume skills `["python"]`
and the default configuration (`priority_skill_bonus = 2.0`),
`calculate_skill_match` returns `matched_skills = ["python"]`,
`missing_skills = ["sql"]`, `match_percentage = 50` and a final score of
exactly `1.0` (base `0.5` blended with the saturated priority term `2.0` at
priority weight `0.5`, then clamped to `1.0`). -/
theorem C1_scenario_A_priority_saturation :
    (calculate_skill_match ["python"] ["python", "sql"] ["python"] defaultConfig).matched_skills
        = ["python"]
      ∧ (calculate_skill_match ["python"] ["python", "sql"] ["python"] defaultConfig).missing_skills
        = ["sql"]
      ∧ (calculate_skill_match ["python"] ["python", "sql"] ["python"] defaultConfig).match_percentage
        = 50
      ∧ (calculate_skill_match ["python"] ["python", "sql"] ["python"] defaultConfig).score = 1 := by
  have hm : matchedSkills ["python"] ["python", "sql"] = ["python"] := by decide
  have hmi : missingSkills ["python"] ["python", "sql"] = ["sql"] := by decide
  have hpm : (priMatched ["python"] ["python"]).length = 1 := by decide
  have hne : (["python", "sql"] : List String) ≠ [] := by decide
  refine ⟨?_, ?_, ?_, ?_⟩
  · rw [csm_matched_skills _ _ _ _ hne, hm]
  · rw [csm_missing_skills _ _ _ _ hne, hmi]
  · rw [csm_match_percentage _ _ _ _ hne, hm]
    norm_num [pyround, roundHalfEven, Int.fract]
  · rw [csm_score _ _ _ _ hne]
    simp only [skillScore, hm, hpm]
    norm_num [pyround, roundHalfEven, Int.fract, defaultConfig]

/-- C7 (partition invariant): for every non-empty job-skills list, the
`matched_skills` and `missing_skills` lists returned by
`calculate_skill_match` partition `job_skills`: their concatenation is a
permutation of `job_skills` (each preserving job order), and no skill occurs
in both lists. -/
theorem C7_matched_missing_partition
    (resume_skills job_skills priority_skills : List String) (config : Config)
    (h : job_skills ≠ []) :
    List.Perm
        ((calculate_skill_match resume_skills job_skills priority_skills config).matched_skills
          ++ (calculate_skill_match resume_skills job_skills priority_skills config).missing_skills)
        job_skills
      ∧ ∀ s, s ∈ (calculate_skill_match resume_skills job_skills priority_skills config).matched_skills
          → s ∉ (calculate_skill_match resume_skills job_skills priority_skills config).missing_skills := by
  rw [csm_matched_skills _ _ _ _ h, csm_missing_skills _ _ _ _ h]
  constructor
  · exact List.filter_append_perm _ job_skills
  · intro s hsm hsx
    have h1 := (List.mem_filter.mp hsm).2
    have h2 := (List.mem_filter.mp hsx).2
    rw [h1] at h2
    simp at h2

/-- Witness for C7 at a concrete input. -/
theorem C7_matched_missing_partition_witness :
    List.Perm
        ((calculate_skill_match ["python"] ["python", "sql"] [] defaultConfig).matched_skills
          ++ (calculate_skill_match ["python"] ["python", "sql"] [] defaultConfig).missing_skills)
        ["python", "sql"]
      ∧ ∀ s, s ∈ (calculate_skill_match ["python"] ["python", "sql"] [] defaultConfig).matched_skills
          → s ∉ (calculate_skill_match ["python"] ["python", "sql"] [] defaultConfig).missing_skills :=
  C7_matched_missing_partition ["python"] ["python", "sql"] [] defaultConfig (by decide)

/-- C9: the parallel legacy scorer `calculate_skill_match_score` in
`text_analysis.py` returns `0.0` for every resume-skills list when
`job_skills` is empty, the opposite of the `1.0` empty-requirements default
of `calculate_skill_match` in the matcher module. -/
theorem C9_legacy_scorer_empty_job_zero :
    (∀ resume_skills : List String, calculate_skill_match_score [] resume_skills = 0)
      ∧ ∀ (resume_skills priority_skills : List String) (config : Config),
          (calculate_skill_match resume_skills [] priority_skills config).score = 1 := by
  constructor
  · intro resume_skills
    simp [calculate_skill_match_score]
  · intro resume_skills priority_skills config
    simp [calculate_skill_match]

/-- C8 as stated is false: the output order of `extract_skills` is produced
by `list(set(...))`, whose enumeration order is not determined by the input
text. Two admissible set-enumeration behaviors give different output orders
on the concrete text `"python and sql"`. -/
theorem C8_counterexample_order_not_stable :
    SetOrderSpec (fun l => l.dedup)
      ∧ SetOrderSpec (fun l => l.dedup.reverse)
      ∧ extract_skills (fun l => l.dedup) "python and sql"
          ≠ extract_skills (fun l => l.dedup.reverse) "python and sql" := by
  refine ⟨fun l => ?_, fun l => ?_, ?_⟩
  · exact List.Perm.refl _
  · exact List.reverse_perm _
  · decide

/-- C8 amended: `extract_skills` is deterministic up to set-enumeration
order. For any two admissible enumeration behaviors of `list(set(...))` and
any text, the two results contain exactly the same skills (each being a
permutation of the deduplicated list of matched vocabulary terms); only the
order may differ between evaluations. -/
theorem C8_deterministic_up_to_order
    (f g : List String → List String) (hf : SetOrderSpec f) (hg : SetOrderSpec g)
    (text : String) :
    List.Perm (extract_skills f text) ((extract_skills_raw text).dedup)
      ∧ List.Perm (extract_skills f text) (extract_skills g text)
      ∧ ∀ s, s ∈ extract_skills f text ↔ s ∈ extract_skills g text := by
  refine ⟨hf _, (hf _).trans (hg _).symm, fun s => ?_⟩
  exact ⟨fun h => ((hf _).trans (hg _).symm).mem_iff.mp h,
         fun h => ((hf _).trans (hg _).symm).mem_iff.mpr h⟩

/-- Witness for the amended C8 theorem at a concrete oracle pair and text. -/
theorem C8_deterministic_up_to_order_witness :
    List.Perm (extract_skills (fun l => l.dedup) "python and sql")
        ((extract_skills_raw "python and sql").dedup)
      ∧ List.Perm (extract_skills (fun l => l.dedup) "python and sql")
          (extract_skills (fun l => l.dedup.reverse) "python and sql")
      ∧ ∀ s, s ∈ extract_skills (fun l => l.dedup) "python and sql"
          ↔ s ∈ extract_skills (fun l => l.dedup.reverse) "python and sql" :=
  C8_deterministic_up_to_order (fun l => l.dedup) (fun l => l.dedup.reverse)
    (fun _ => List.Perm.refl _) (fun _ => List.reverse_perm _) "python and sql"

/-- C10: in `calculate_skill_match` a job skill counts as matched when its
lowered form equals some lowered resume skill or is a substring of one,
while a priority skill counts as priority-matched only on exact
case-insensitive equality; consequently, for job and priority skill
`"java"` against resume skill `"javascript"`, the skill `"java"` appears in
`matched_skills` and simultaneously in `priority_missing`. -/
theorem C10_substring_vs_exact_priority :
    (∀ (rs js ps : List String) (cfg : Config), js ≠ [] →
        (∀ s, s ∈ (calculate_skill_match rs js ps cfg).matched_skills
            ↔ s ∈ js ∧ ∃ r ∈ rs, pyLower s = pyLower r ∨ pyLower s <:+: pyLower r)
          ∧ ∀ s, s ∈ (calculate_skill_match rs js ps cfg).priority_matched
            ↔ s ∈ ps ∧ ∃ r ∈ rs, pyLower s = pyLower r)
      ∧ "java" ∈ (calculate_skill_match ["javascript"] ["java"] ["java"] defaultConfig).matched_skills
      ∧ "java" ∈ (calculate_skill_match ["javascript"] ["java"] ["java"] defaultConfig).priority_missing := by
  refine ⟨fun rs js ps cfg h => ⟨fun s => ?_, fun s => ?_⟩, ?_, ?_⟩
  · rw [csm_matched_skills _ _ _ _ h]
    simp only [matchedSkills, List.mem_filter, skillMatchedB_iff]
  · rw [csm_priority_matched _ _ _ _ h]
    simp only [priMatched, List.mem_filter, priorityMatchedB_iff]
  · rw [csm_matched_skills _ _ _ _ (by decide)]
    decide
  · rw [csm_priority_missing _ _ _ _ (by decide)]
    decide

/-- Witness for the universally quantified part of C10 at a concrete input. -/
theorem C10_substring_vs_exact_priority_witness :
    ("java" ∈ (calculate_skill_match ["javascript"] ["java"] ["java"] defaultConfig).matched_skills
        ↔ "java" ∈ (["java"] : List String)
            ∧ ∃ r ∈ (["javascript"] : List String),
                pyLower "java" = pyLower r ∨ pyLower "java" <:+: pyLower r)
      ∧ ("java" ∈ (calculate_skill_match ["javascript"] ["java"] ["java"] defaultConfig).priority_matched
        ↔ "java" ∈ (["java"] : List String)
            ∧ ∃ r ∈ (["javascript"] : List String), pyLower "java" = pyLower r) :=
  ⟨((C10_substring_vs_exact_priority.1 ["javascript"] ["java"] ["java"] defaultConfig
      (by decide)).1 "java"),
   ((C10_substring_vs_exact_priority.1 ["javascript"] ["java"] ["java"] defaultConfig
      (by decide)).2 "java")⟩

/-- C5: when the extracted job year count is `Y > 0` and the candidate total
is `C = calculate_total_experience_years resume`, `calculate_experience_match`
returns score `round(min(1, C/Y), 2)` with `years_required = Y` and
`years_matched = C`; in particular a job requiring 5 years against a
candidate with 3 years yields score `0.6`, `years_required = 5`,
`years_matched = 3`. -/
theorem C5_experience_ratio :
    (∀ (res : List ExpEntry) (text : String) (cfg : Config) (Y : ℕ),
        extract_years_from_experience text = some Y → 0 < Y →
          (calculate_experience_match res text cfg).score
              = pyround (min 1 (calculate_total_experience_years res / Y)) 2
            ∧ (calculate_experience_match res text cfg).years_required = some Y
            ∧ (calculate_experience_match res text cfg).years_matched
              = some (calculate_total_experience_years res))
      ∧ (calculate_experience_match [⟨none, some (some 3), none, none, none⟩]
            "5 years" defaultConfig).score = 3/5
      ∧ (calculate_experience_match [⟨none, some (some 3), none, none, none⟩]
            "5 years" defaultConfig).years_required = some 5
      ∧ (calculate_experience_match [⟨none, some (some 3), none, none, none⟩]
            "5 years" defaultConfig).years_matched = some 3 := by
  have main : ∀ (res : List ExpEntry) (text : String) (cfg : Config) (Y : ℕ),
      extract_years_from_experience text = some Y → 0 < Y →
        (calculate_experience_match res text cfg).score
            = pyround (min 1 (calculate_total_experience_years res / Y)) 2
          ∧ (calculate_experience_match res text cfg).years_required = some Y
          ∧ (calculate_experience_match res text cfg).years_matched
            = some (calculate_total_experience_years res) := by
    intro res text cfg Y hx hY
    have htext : text ≠ "" := by
      intro h
      rw [h, show extract_years_from_experience "" = none from by decide] at hx
      exact Option.noConfusion hx
    have hYq : (0 : ℚ) < (Y : ℚ) := by exact_mod_cast hY
    by_cases hge : (Y : ℚ) ≤ calculate_total_experience_years res
    · have hmin : min 1 (calculate_total_experience_years res / (Y : ℚ)) = 1 :=
        min_eq_left ((one_le_div hYq).mpr hge)
      simp only [calculate_experience_match, if_neg htext, hx, if_pos hY, if_pos hge, hmin]
      refine ⟨?_, ?_, ?_⟩ <;> trivial
    · have hmin : min 1 (calculate_total_experience_years res / (Y : ℚ))
          = calculate_total_experience_years res / (Y : ℚ) :=
        min_eq_right ((div_le_one hYq).mpr (le_of_not_le hge))
      simp only [calculate_experience_match, if_neg htext, hx, if_pos hY, if_neg hge, hmin]
      refine ⟨?_, ?_, ?_⟩ <;> trivial
  have hx5 : extract_years_from_experience "5 years" = some 5 := by decide
  have hC : calculate_total_experience_years [⟨none, some (some 3), none, none, none⟩] = 3 := by
    norm_num [calculate_total_experience_years, entryYears, pyround, roundHalfEven, Int.fract]
  have h := main [⟨none, some (some 3), none, none, none⟩] "5 years" defaultConfig 5 hx5
    (by norm_num)
  refine ⟨main, ?_, h.2.1, by rw [h.2.2, hC]⟩
  rw [h.1, hC]
  rw [show min (1 : ℚ) (3 / (5 : ℕ)) = 3/5 by
    rw [min_eq_right]
    all_goals norm_num]
  norm_num [pyround, roundHalfEven, Int.fract]

/-- Witness for C5 at a concrete input. -/
theorem C5_experience_ratio_witness :
    (calculate_experience_match [⟨none, some (some 3), none, none, none⟩]
          "5 years" defaultConfig).score
        = pyround (min 1 (calculate_total_experience_years
            [⟨none, some (some 3), none, none, none⟩] / (5 : ℕ))) 2
      ∧ (calculate_experience_match [⟨none, some (some 3), none, none, none⟩]
          "5 years" defaultConfig).years_required = some 5
      ∧ (calculate_experience_match [⟨none, some (some 3), none, none, none⟩]
          "5 years" defaultConfig).years_matched
        = some (calculate_total_experience_years
            [⟨none, some (some 3), none, none, none⟩]) :=
  C5_experience_ratio.1 [⟨none, some (some 3), none, none, none⟩] "5 years" defaultConfig 5
    (by decide) (by norm_num)

/-- C2: for well-formed input records (priority skills an ordered subset of
the job skills, positive configured weights and bonus, nonnegative `years`
fields, and cosine similarities from the external vectorizer in `[0,1]`),
every score field emitted by the scorer — the skill, experience, education,
keyword-density and content-similarity sub-scores and `overall_score` — lies
in the interval `[0,1]`. -/
theorem C2_scores_in_unit_interval
    (tfidf : List String → Option (List ℚ))
    (hsim : ∀ docs sims, tfidf docs = some sims → ∀ s ∈ sims, 0 ≤ s ∧ s ≤ 1)
    (rd : ResumeData) (ja : JobAnalysis) (cfg : Config)
    (hsub : ja.priority_skills.Sublist ja.skills)
    (hw1 : 0 < cfg.skill_weight) (hw2 : 0 < cfg.experience_weight)
    (hw3 : 0 < cfg.education_weight) (hwb : 0 < cfg.priority_skill_bonus)
    (hyears : ∀ e ∈ rd.experience, ∀ q, e.years = some (some q) → 0 ≤ q) :
    (0 ≤ (calculate_match_score tfidf rd ja cfg).skill_analysis.score
        ∧ (calculate_match_score tfidf rd ja cfg).skill_analysis.score ≤ 1)
      ∧ (0 ≤ (calculate_match_score tfidf rd ja cfg).experience_analysis.score
        ∧ (calculate_match_score tfidf rd ja cfg).experience_analysis.score ≤ 1)
      ∧ (0 ≤ (calculate_match_score tfidf rd ja cfg).education_analysis.score
        ∧ (calculate_match_score tfidf rd ja cfg).education_analysis.score ≤ 1)
      ∧ (0 ≤ (calculate_match_score tfidf rd ja cfg).keyword_density.score
        ∧ (calculate_match_score tfidf rd ja cfg).keyword_density.score ≤ 1)
      ∧ (0 ≤ (calculate_match_score tfidf rd ja cfg).content_similarity.score
        ∧ (calculate_match_score tfidf rd ja cfg).content_similarity.score ≤ 1)
      ∧ (0 ≤ (calculate_match_score tfidf rd ja cfg).overall_score
        ∧ (calculate_match_score tfidf rd ja cfg).overall_score ≤ 1) := by
  have hskill := calculate_skill_match_score_mem rd.skills ja.skills ja.priority_skills cfg
    hsub.length_le hwb.le
  have hexp := calculate_experience_match_score_mem rd.experience ja.experience cfg hyears
  have hedu := calculate_education_match_score_mem rd.education ja.education cfg
  have hkw := calculate_keyword_density_score_mem rd.raw_text ja.skills
  have hcs := calculate_content_similarity_score_mem tfidf hsim rd.raw_text ja.responsibilities
  have hov := overallScore_mem _ _ _ cfg hskill hexp hedu hw1 hw2 hw3
  exact ⟨hskill, hexp, hedu, hkw, hcs, hov⟩

/-- Witness for C2 at a concrete well-formed input. -/
theorem C2_scores_in_unit_interval_witness :
    (0 ≤ (calculate_match_score (fun _ => none) ⟨["python"], [], [], ""⟩
          ⟨["python"], ["python"], "", [], []⟩ defaultConfig).skill_analysis.score
        ∧ (calculate_match_score (fun _ => none) ⟨["python"], [], [], ""⟩
          ⟨["python"], ["python"], "", [], []⟩ defaultConfig).skill_analysis.score ≤ 1)
      ∧ (0 ≤ (calculate_match_score (fun _ => none) ⟨["python"], [], [], ""⟩
          ⟨["python"], ["python"], "", [], []⟩ defaultConfig).experience_analysis.score
        ∧ (calculate_match_score (fun _ => none) ⟨["python"], [], [], ""⟩
          ⟨["python"], ["python"], "", [], []⟩ defaultConfig).experience_analysis.score ≤ 1)
      ∧ (0 ≤ (calculate_match_score (fun _ => none) ⟨["python"], [], [], ""⟩
          ⟨["python"], ["python"], "", [], []⟩ defaultConfig).education_analysis.score
        ∧ (calculate_match_score (fun _ => none) ⟨["python"], [], [], ""⟩
          ⟨["python"], ["python"], "", [], []⟩ defaultConfig).education_analysis.score ≤ 1)
      ∧ (0 ≤ (calculate_match_score (fun _ => none) ⟨["python"], [], [], ""⟩
          ⟨["python"], ["python"], "", [], []⟩ defaultConfig).keyword_density.score
        ∧ (calculate_match_score (fun _ => none) ⟨["python"], [], [], ""⟩
          ⟨["python"], ["python"], "", [], []⟩ defaultConfig).keyword_density.score ≤ 1)
      ∧ (0 ≤ (calculate_match_score (fun _ => none) ⟨["python"], [], [], ""⟩
          ⟨["python"], ["python"], "", [], []⟩ defaultConfig).content_similarity.score
        ∧ (calculate_match_score (fun _ => none) ⟨["python"], [], [], ""⟩
          ⟨["python"], ["python"], "", [], []⟩ defaultConfig).content_similarity.score ≤ 1)
      ∧ (0 ≤ (calculate_match_score (fun _ => none) ⟨["python"], [], [], ""⟩
          ⟨["python"], ["python"], "", [], []⟩ defaultConfig).overall_score
        ∧ (calculate_match_score (fun _ => none) ⟨["python"], [], [], ""⟩
          ⟨["python"], ["python"], "", [], []⟩ defaultConfig).overall_score ≤ 1) :=
  C2_scores_in_unit_interval (fun _ => none) (by intro docs sims h; simp at h)
    ⟨["python"], [], [], ""⟩ ⟨["python"], ["python"], "", [], []⟩ defaultConfig
    (List.Sublist.refl _) (by norm_num [defaultConfig]) (by norm_num [defaultConfig])
    (by norm_num [defaultConfig]) (by norm_num [defaultConfig])
    (by intro e he; simp at he)

/-- C3: `calculate_match_score` computes `overall_score` as the weighted
average of the skill, experience and education sub-scores normalized by the
sum of the three configured weights, rounded to two decimals; whenever all
three sub-scores equal `1.0` the overall score equals `1.0` for any positive
weights; and sub-scores `1.0 / 0.6 / 1.0` under default weights yield overall
`0.88` with ranking `"Strong Match"` and percentile `"Top 20%"`. -/
theorem C3_overall_weighted_average :
    (∀ (tfidf : List String → Option (List ℚ)) (rd : ResumeData) (ja : JobAnalysis)
        (cfg : Config),
        (calculate_match_score tfidf rd ja cfg).overall_score
          = pyround
              (((calculate_skill_match rd.skills ja.skills ja.priority_skills cfg).score
                    * cfg.skill_weight
                  + (calculate_experience_match rd.experience ja.experience cfg).score
                    * cfg.experience_weight
                  + (calculate_education_match rd.education ja.education cfg).score
                    * cfg.education_weight)
                / (cfg.skill_weight + cfg.experience_weight + cfg.education_weight)) 2)
      ∧ (∀ (tfidf : List String → Option (List ℚ)) (rd : ResumeData) (ja : JobAnalysis)
          (cfg : Config),
          0 < cfg.skill_weight → 0 < cfg.experience_weight → 0 < cfg.education_weight →
          (calculate_skill_match rd.skills ja.skills ja.priority_skills cfg).score = 1 →
          (calculate_experience_match rd.experience ja.experience cfg).score = 1 →
          (calculate_education_match rd.education ja.education cfg).score = 1 →
          (calculate_match_score tfidf rd ja cfg).overall_score = 1)
      ∧ ((calculate_match_score (fun _ => none)
            ⟨[], [⟨none, some (some 3), none, none, none⟩], [], ""⟩
            ⟨[], [], "5 years", [], []⟩ defaultConfig).overall_score = 22/25
        ∧ (calculate_match_score (fun _ => none)
            ⟨[], [⟨none, some (some 3), none, none, none⟩], [], ""⟩
            ⟨[], [], "5 years", [], []⟩ defaultConfig).ranking = "Strong Match"
        ∧ (calculate_match_score (fun _ => none)
            ⟨[], [⟨none, some (some 3), none, none, none⟩], [], ""⟩
            ⟨[], [], "5 years", [], []⟩ defaultConfig).percentile = "Top 20%") := by
  have hexp : (calculate_experience_match [⟨none, some (some 3), none, none, none⟩]
      "5 years" defaultConfig).score = 3/5 := by
    have hx5 : extract_years_from_experience "5 years" = some 5 := by decide
    have hC : calculate_total_experience_years [⟨none, some (some 3), none, none, none⟩]
        = 3 := by
      norm_num [calculate_total_experience_years, entryYears, pyround, roundHalfEven, Int.fract]
    have hne : ("5 years" : String) ≠ "" := by decide
    have hlt : ¬ ((5 : ℕ) : ℚ) ≤ calculate_total_experience_years
        [⟨none, some (some 3), none, none, none⟩] := by
      rw [hC]; norm_num
    simp only [calculate_experience_match, if_neg hne, hx5,
      if_pos (by norm_num : (0:ℕ) < 5), if_neg hlt, hC]
    norm_num [pyround, roundHalfEven, Int.fract]
  have hov : (calculate_match_score (fun _ => none)
      ⟨[], [⟨none, some (some 3), none, none, none⟩], [], ""⟩
      ⟨[], [], "5 years", [], []⟩ defaultConfig).overall_score = 22/25 := by
    have hs : (calculate_skill_match [] [] [] defaultConfig).score = 1 := by
      simp [calculate_skill_match]
    have hd : (calculate_education_match [] [] defaultConfig).score = 1 := by
      simp [calculate_education_match]
    simp only [calculate_match_score, overallScore, hs, hexp, hd]
    norm_num [defaultConfig, pyround, roundHalfEven, Int.fract]
  refine ⟨fun tfidf rd ja cfg => rfl, ?_, hov, ?_, ?_⟩
  · intro tfidf rd ja cfg hw1 hw2 hw3 hs he hd
    simp only [calculate_match_score, overallScore, hs, he, hd, one_mul]
    rw [div_self (by linarith)]
    norm_num [pyround, roundHalfEven, Int.fract]
  · have hrank : (calculate_match_score (fun _ => none)
        ⟨[], [⟨none, some (some 3), none, none, none⟩], [], ""⟩
        ⟨[], [], "5 years", [], []⟩ defaultConfig).ranking
        = (rankingOf ((calculate_match_score (fun _ => none)
            ⟨[], [⟨none, some (some 3), none, none, none⟩], [], ""⟩
            ⟨[], [], "5 years", [], []⟩ defaultConfig).overall_score)).1 := rfl
    rw [hrank, hov]
    norm_num [rankingOf]
  · have hperc : (calculate_match_score (fun _ => none)
        ⟨[], [⟨none, some (some 3), none, none, none⟩], [], ""⟩
        ⟨[], [], "5 years", [], []⟩ defaultConfig).percentile
        = (rankingOf ((calculate_match_score (fun _ => none)
            ⟨[], [⟨none, some (some 3), none, none, none⟩], [], ""⟩
            ⟨[], [], "5 years", [], []⟩ defaultConfig).overall_score)).2 := rfl
    rw [hperc, hov]
    norm_num [rankingOf]

/-- Witness for C3 at a concrete input with all three sub-scores equal to one. -/
theorem C3_overall_weighted_average_witness :
    (calculate_match_score (fun _ => none) ⟨[], [], [], ""⟩ ⟨[], [], "", [], []⟩
        defaultConfig).overall_score = 1 :=
  C3_overall_weighted_average.2.1 (fun _ => none) ⟨[], [], [], ""⟩ ⟨[], [], "", [], []⟩
    defaultConfig (by norm_num [defaultConfig]) (by norm_num [defaultConfig])
    (by norm_num [defaultConfig]) (by simp [calculate_skill_match])
    (by simp [calculate_experience_match]) (by simp [calculate_education_match])

/-- C4: when the job side of a scoring category is empty, the sub-score of
that category defaults to `1.0`: `calculate_skill_match` with `job_skills = []`,
`calculate_experience_match` with empty `job_experience`, and
`calculate_education_match` with empty `job_education`, each return score
`1.0` for every resume input. -/
theorem C4_empty_job_requirements_default_one :
    (∀ (resume_skills priority_skills : List String) (cfg : Config),
        (calculate_skill_match resume_skills [] priority_skills cfg).score = 1)
      ∧ (∀ (resume_experience : List ExpEntry) (cfg : Config),
          (calculate_experience_match resume_experience "" cfg).score = 1)
      ∧ (∀ (resume_education : List EduEntry) (cfg : Config),
          (calculate_education_match resume_education [] cfg).score = 1) := by
  refine ⟨fun rs ps cfg => ?_, fun re cfg => ?_, fun re cfg => ?_⟩
  · simp [calculate_skill_match]
  · simp [calculate_experience_match]
  · simp [calculate_education_match]

/-- C6: degree match credit is monotone in the candidate level on the
hierarchy associate(1) < bachelor(2) < master(3) < doctorate(4): for every
recognized required degree and recognized candidate degree,
`calculate_degree_match_score` returns `1.0` when the candidate level is at
least the required level, and the ratio `candidate_level / required_level`
when it is below. -/
theorem C6_degree_match_monotone
    (required_degree candidate_degree : String)
    (hreq : 0 < degreeLevel required_degree) (hcand : 0 < degreeLevel candidate_degree) :
    (degreeLevel required_degree ≤ degreeLevel candidate_degree →
        calculate_degree_match_score candidate_degree required_degree = 1)
      ∧ (degreeLevel candidate_degree < degreeLevel required_degree →
          calculate_degree_match_score candidate_degree required_degree
            = (degreeLevel candidate_degree : ℚ) / (degreeLevel required_degree : ℚ)) := by
  constructor
  · intro hle
    by_cases heq : candidate_degree = required_degree
    · simp [calculate_degree_match_score, heq]
    · have hstrict : degreeLevel required_degree < degreeLevel candidate_degree :=
        lt_of_le_of_ne hle (fun h => heq (degreeLevel_inj hcand hreq h.symm))
      simp only [calculate_degree_match_score]
      rw [if_neg heq, if_pos hstrict]
  · intro hlt
    have heq : candidate_degree ≠ required_degree := by
      intro h
      rw [h] at hlt
      exact lt_irrefl _ hlt
    simp only [calculate_degree_match_score]
    rw [if_neg heq, if_neg (not_lt.mpr hlt.le), if_pos ⟨hcand, hreq⟩]

/-- Witness for C6 at a concrete recognized pair. -/
theorem C6_degree_match_monotone_witness :
    ((degreeLevel "master" ≤ degreeLevel "doctorate" →
        calculate_degree_match_score "doctorate" "master" = 1)
      ∧ (degreeLevel "doctorate" < degreeLevel "master" →
          calculate_degree_match_score "doctorate" "master"
            = (degreeLevel "doctorate" : ℚ) / (degreeLevel "master" : ℚ))) :=
  C6_degree_match_monotone "master" "doctorate" (by decide) (by decide)

end ResumeRater
